import Mathlib

/-!
Shallow embedding of the VISCA ptz-server protocol engine (JavaScript)
and proofs about its specification claims.

The embedding translates the JavaScript sources byte-for-byte faithfully,
including the places where the JavaScript is buggy (an undeclared-variable
read, a hex/binary literal mix-up, a for-in over an array of keys, and a
splice that returns an array).  JavaScript numbers stay within the exact
integer range on every code path the claims quantify over, so Nat and Int
with the stated coercions model them exactly; thrown exceptions are
modelled with Except.
-/

namespace Ptz

/-! ## Constants

The module requires a file constants.js that is not among the provided
sources.  Every constant value used below is fixed by the spec (message
types and datatypes in §4.1, the header bit layout in §6, the zoom-direct
opcode by the byte-exact scenario in §8); the pan-tilt status bit-layout
constants are not fixed anywhere, so the PTStatus embedding is universally
quantified over them instead.
-/

/-- Modelled from the spec: constants.js is missing; §4.1 gives COMMAND=0x01. -/
def MSGTYPE_COMMAND : Nat := 0x01

/-- Modelled from the spec: constants.js is missing; §4.1 gives INQUIRY=0x09. -/
def MSGTYPE_INQUIRY : Nat := 0x09

/-- Modelled from the spec: constants.js is missing; §4.1 gives ADDRESS_SET=0x30. -/
def MSGTYPE_ADDRESS_SET : Nat := 0x30

/-- Modelled from the spec: constants.js is missing; §4.1 gives NETCHANGE=0x38. -/
def MSGTYPE_NETCHANGE : Nat := 0x38

/-- Modelled from the spec: constants.js is missing; §4.1 gives ACK=0x40. -/
def MSGTYPE_ACK : Nat := 0x40

/-- Modelled from the spec: constants.js is missing; §4.1 gives COMPLETE=0x50. -/
def MSGTYPE_COMPLETE : Nat := 0x50

/-- Modelled from the spec: constants.js is missing; §4.1 gives ERROR=0x60. -/
def MSGTYPE_ERROR : Nat := 0x60

/-- Modelled from the spec: constants.js is missing; §4.1 gives CANCEL=0x20. -/
def MSGTYPE_CANCEL : Nat := 0x20

/-- Modelled from the spec: constants.js is missing; §4.1 gives INTERFACE=0x00. -/
def DATATYPE_INTERFACE : Nat := 0x00

/-- Modelled from the spec: constants.js is missing; §4.1 gives CAMERA=0x04. -/
def DATATYPE_CAMERA : Nat := 0x04

/-- Modelled from the spec: constants.js is missing; §4.1 gives PAN_TILT=0x06. -/
def DATATYPE_PAN_TILT : Nat := 0x06

/-- Modelled from the spec: constants.js is missing; §4.1 gives OPERATION=0x07. -/
def DATATYPE_OPERATION : Nat := 0x07

/-- Modelled from the spec: constants.js is missing; §6 puts the source
address in header bits 6..4, so the source mask is 0x70 (the parser shifts
the masked value right by 4). -/
def HEADERMASK_SOURCE : Nat := 0x70

/-- Modelled from the spec: constants.js is missing; §6 puts the broadcast
flag in header bit 3, so the broadcast mask is 0x08. -/
def HEADERMASK_BROADCAST : Nat := 0x08

/-- Modelled from the spec: constants.js is missing; §6 puts the recipient
address in header bits 2..0, so the recipient mask is 0x07. -/
def HEADERMASK_RECIPIENT : Nat := 0x07

/-- Modelled from the spec: constants.js is missing; scenario 1 in §8 shows
the zoom-direct subcommand byte 0x47 (frame 81 01 04 47 pp qq rr ss FF). -/
def CAM_ZOOM_DIRECT : Nat := 0x47

/-! ## Integer codec (command.js helper functions)

JavaScript bitwise operators coerce to 32-bit integers; all codec call
sites keep values in [0, 0xFFFF] (after the signed shift in si2v), where
that coercion is the identity, so Nat operations model them exactly.
-/

/-- Embeds i2v: encode a 16-bit word as four nibble-safe bytes.
Source: let ms = (value and 0xFF00) >> 8; let ls = value and 0xFF;
then p,r are the high nibbles and q,s the low nibbles of ms,ls. -/
def i2v (value : Nat) : List Nat :=
  let ms := (value &&& 0xFF00) >>> 8
  let ls := value &&& 0xFF
  let p := (ms &&& 0xF0) >>> 4
  let r := (ls &&& 0xF0) >>> 4
  let q := ms &&& 0xF
  let s := ls &&& 0xF
  [p, q, r, s]

/-- Embeds v2i: decode four nibble bytes back into a word; a two-byte
input is left-padded with [0, 0] first.  JavaScript destructures the first
four entries; getD 0 stands in for the (unreached) undefined case. -/
def v2i (data : List Nat) : Nat :=
  let data := if data.length == 2 then [0, 0] ++ data else data
  let p := data.getD 0 0
  let q := data.getD 1 0
  let r := data.getD 2 0
  let s := data.getD 3 0
  let ls := (r <<< 4) ||| (s &&& 0b1111)
  let ms := (p <<< 4) ||| (q &&& 0b1111)
  (ms <<< 8) ||| ls

/-- Embeds si2v: clamp to [-32768, 32767], shift negatives by 0x10000
(the source writes 0xffff + value + 1), then apply i2v.  After the shift
the value is in [0, 0xFFFF], so the Int-to-Nat conversion is lossless. -/
def si2v (value : Int) : List Nat :=
  let value := if value > 32767 then 32767 else value
  let value := if value < -32768 then -32768 else value
  let value := if value < 0 then 0xffff + value + 1 else value
  i2v value.toNat

/-- Embeds v2si: pad a two-byte input, apply v2i, and shift results above
32767 down by 0x10000 (the source writes value - 0xffff - 1). -/
def v2si (data : List Nat) : Int :=
  let data := if data.length == 2 then [0, 0] ++ data else data
  let value : Int := v2i data
  if value > 32767 then value - 0xffff - 1 else value

/-! ### Bitwise-to-arithmetic bridge lemmas -/

theorem shiftRight_and_shiftLeft (x m n : Nat) :
    (x &&& (m <<< n)) >>> n = (x >>> n) &&& m := by
  apply Nat.eq_of_testBit_eq
  intro i
  simp [Nat.testBit_shiftRight, Nat.testBit_and, Nat.testBit_shiftLeft,
    Nat.le_add_right, Nat.add_sub_cancel_left]

theorem and_255 (x : Nat) : x &&& 0xFF = x % 256 := by
  have h := Nat.and_pow_two_sub_one_eq_mod x 8
  norm_num at h
  exact h

theorem and_15 (x : Nat) : x &&& 0xF = x % 16 := by
  have h := Nat.and_pow_two_sub_one_eq_mod x 4
  norm_num at h
  exact h

theorem andFF00_shift (x : Nat) : (x &&& 0xFF00) >>> 8 = x / 256 % 256 := by
  have h : (0xFF00 : Nat) = 0xFF <<< 8 := by decide
  rw [h, shiftRight_and_shiftLeft, and_255, Nat.shiftRight_eq_div_pow]

theorem andF0_shift (x : Nat) : (x &&& 0xF0) >>> 4 = x / 16 % 16 := by
  have h : (0xF0 : Nat) = 0xF <<< 4 := by decide
  rw [h, shiftRight_and_shiftLeft, and_15, Nat.shiftRight_eq_div_pow]

theorem or_pow (n a b : Nat) (hb : b < 2 ^ n) : (a <<< n) ||| b = 2 ^ n * a + b := by
  rw [Nat.shiftLeft_eq, Nat.mul_comm, ← Nat.mul_add_lt_is_or hb]

theorem v2i_i2v (u : Nat) (hu : u ≤ 0xFFFF) : v2i (i2v u) = u := by
  simp [i2v, v2i]
  rw [andFF00_shift, and_255, andF0_shift, andF0_shift, and_15, and_15, and_15, and_15]
  rw [or_pow 4 _ _ (by omega), or_pow 4 _ _ (by omega), or_pow 8 _ _ (by omega)]
  omega

theorem v2si_i2v (x : Nat) (hx : x ≤ 0xFFFF) :
    v2si (i2v x) = if 32767 < x then (x : Int) - 0x10000 else (x : Int) := by
  have hlen : ((i2v x).length == 2) = false := by simp [i2v]
  simp only [v2si, hlen, Bool.false_eq_true, if_false]
  rw [v2i_i2v x hx]
  split
  · rw [if_pos (by omega)]
    omega
  · rw [if_neg (by omega)]

theorem v2si_si2v (s : Int) (h1 : -32768 ≤ s) (h2 : s ≤ 32767) :
    v2si (si2v s) = s := by
  simp only [si2v]
  rw [show (if s > 32767 then 32767 else s) = s from if_neg (by omega)]
  rw [show (if s < -32768 then -32768 else s) = s from if_neg (by omega)]
  by_cases hneg : s < 0
  · rw [if_pos hneg]
    have hb : (0xffff + s + 1).toNat ≤ 0xFFFF := by omega
    rw [v2si_i2v _ hb]
    rw [if_pos (by omega)]
    omega
  · rw [if_neg hneg]
    have hb : s.toNat ≤ 0xFFFF := by omega
    rw [v2si_i2v _ hb]
    rw [if_neg (by omega)]
    omega

theorem i2v_arith (u : Nat) :
    i2v u = [u / 256 % 256 / 16 % 16, u / 256 % 256 % 16, u % 256 / 16 % 16, u % 256 % 16] := by
  simp only [i2v]
  simp only [andFF00_shift, and_255, andF0_shift, and_15]

/-- Claim C2: the unsigned codec round-trips on [0, 0xFFFF] and the signed
codec round-trips on [-32768, 32767]: v2i (i2v u) = u and v2si (si2v s) = s. -/
theorem C2_codec_roundtrip (u : Nat) (hu : u ≤ 0xFFFF)
    (s : Int) (hs1 : -32768 ≤ s) (hs2 : s ≤ 32767) :
    v2i (i2v u) = u ∧ v2si (si2v s) = s :=
  ⟨v2i_i2v u hu, v2si_si2v s hs1 hs2⟩

/-- Witness for C2 at u = 0x1234 and s = -100. -/
theorem C2_codec_roundtrip_witness :
    v2i (i2v 0x1234) = 0x1234 ∧ v2si (si2v (-100)) = -100 :=
  C2_codec_roundtrip 0x1234 (by norm_num) (-100) (by norm_num) (by norm_num)

/-- Claim C8: every byte emitted by i2v has its high nibble zero (it is at
most 0x0F), and in particular no byte produced by the codec equals 0xFF. -/
theorem C8_nibble_safety (u : Nat) (hu : u ≤ 0xFFFF) :
    ∀ b ∈ i2v u, b ≤ 0x0F ∧ b ≠ 0xFF := by
  intro b hb
  rw [i2v_arith] at hb
  simp only [List.mem_cons, List.not_mem_nil, or_false] at hb
  rcases hb with rfl | rfl | rfl | rfl <;> constructor <;> omega

/-- Witness for C8 at u = 0x1234 with byte b = 2 (the second emitted byte). -/
theorem C8_nibble_safety_witness : (2 : Nat) ≤ 0x0F ∧ (2 : Nat) ≠ 0xFF :=
  C8_nibble_safety 0x1234 (by norm_num) 2 (by decide)

/-! ## Command (command.js class Command)

The Command value object.  Callbacks (onAck, onComplete, onError) and the
dataParser do not influence any wire-format claim and are omitted from the
record; camera.js models callbacks observably with an event list below.
-/

/-- Thrown JavaScript exceptions that the embedded code paths can raise. -/
inductive JsError where
  | referenceError
  | typeError
  deriving DecidableEq

structure Command where
  source : Nat
  recipient : Int
  broadcast : Bool
  msgType : Nat
  socket : Nat
  dataType : Nat
  data : List Nat
  deriving DecidableEq

/-- JavaScript ToUint32 of an integer, used to model the bit pattern that a
bitwise operator sees for a (possibly negative) operand. -/
def jsToUint32 (r : Int) : Nat := (r % (2 ^ 32 : Int)).toNat

/-- Options object passed to the Command constructor; absent keys are none. -/
structure CommandOpts where
  source : Option Nat := none
  recipient : Option Int := none
  broadcast : Option Bool := none
  msgType : Option Nat := none
  socket : Option Nat := none
  dataType : Option Nat := none
  data : Option (List Nat) := none

/-- The record _mergeDefaults actually returns (its defaults object). -/
structure MergedOpts where
  source : Nat
  recipient : Int
  broadcast : Bool
  msgType : Nat
  socket : Nat
  dataType : Nat
  data : List Nat

/-- Embeds Command.prototype._mergeDefaults.  The source builds a defaults
object and then runs for (let key in Object.keys(defaults)): for-in over
the key ARRAY yields its index strings "0".."10", not the field names, so
defaults[key] = opts[key] ?? defaults[key] only creates index-named
properties holding undefined.  Every named field of defaults is returned
unchanged and the caller's opts never reach the result (the two opts
mutations on the first lines are dead).  Hence this function is constant. -/
def Command.mergeDefaults (_opts : CommandOpts) : MergedOpts :=
  { source := 0
    recipient := -1
    broadcast := true
    msgType := MSGTYPE_COMMAND
    socket := 0
    dataType := 0
    data := [] }

/-- Embeds the Command constructor: merge defaults, then mask source to
three bits, msgType to a byte and socket to three bits. -/
def Command.make (opts : CommandOpts) : Command :=
  let o := Command.mergeDefaults opts
  { source := o.source &&& 0b111
    recipient := o.recipient
    broadcast := o.broadcast == true
    msgType := o.msgType &&& 0b11111111
    socket := o.socket &&& 0b111
    dataType := o.dataType
    data := o.data }

/-- Embeds Command.prototype.header.  The source initialises header = 0x88,
clears this.broadcast when recipient > -1, and for non-broadcast computes
0b10000000 or (source << 4) or (recipient AND 0x111).  The mask is the hex
literal 0x111 (= 0b100010001) although the surrounding comments document a
three-bit recipient field, so for recipients 0..7 only bit 0 survives. -/
def Command.header (c : Command) : Nat :=
  let broadcast := if c.recipient > -1 then false else c.broadcast
  if !broadcast then
    0b10000000 ||| (c.source <<< 4) ||| (jsToUint32 c.recipient &&& 0x111)
  else
    0x88

/-- Embeds Command.prototype.toPacket: header byte, QQ = msgType or socket,
the datatype byte when nonzero, the payload, and the 0xFF terminator.
Buffer.from stores each entry modulo 256. -/
def Command.toPacket (c : Command) : List Nat :=
  let header := c.header
  let qq := c.msgType ||| c.socket
  let rr := c.dataType
  (if rr > 0 then [header, qq, rr] ++ c.data ++ [0xFF]
   else [header, qq] ++ c.data ++ [0xFF]).map (· % 256)

/-- Embeds Command.prototype._parsePacket.  The method assigns the header
fields, the msgType/socket split and this.data, and then evaluates
(data.length < 2) where the identifier data is undeclared (the source means
this.data), so every call throws a ReferenceError before dataType is
assigned and no caller ever receives a parsed Command.  The local
definitions below record the assignments made before the throw. -/
def Command.parsePacket (packet : List Nat) : Except JsError Command :=
  let header := packet.getD 0 0
  let source := (header &&& HEADERMASK_SOURCE) >>> 4
  let recipient : Int := (header &&& HEADERMASK_RECIPIENT : Nat)
  let broadcast : Bool := ((header &&& HEADERMASK_BROADCAST) >>> 3) == 1
  let qq := packet.getD 1 0
  let isPlainType : Bool :=
    qq == MSGTYPE_COMMAND || qq == MSGTYPE_INQUIRY ||
    qq == MSGTYPE_ADDRESS_SET || qq == MSGTYPE_NETCHANGE
  let msgType := if isPlainType then qq else qq &&& 0b11110000
  let socket := if isPlainType then 0 else qq &&& 0b00001111
  let thisData := (packet.take (packet.length - 1)).drop 2
  have : source = source ∧ recipient = recipient ∧ broadcast = broadcast ∧
      msgType = msgType ∧ socket = socket ∧ thisData = thisData := by
    exact ⟨rfl, rfl, rfl, rfl, rfl, rfl⟩
  Except.error JsError.referenceError

/-- Embeds Command.fromPacket: construct a default Command and parse the
packet into it; the ReferenceError from _parsePacket propagates out. -/
def Command.fromPacket (packet : List Nat) : Except JsError Command :=
  Command.parsePacket packet

/-- Embeds the static builder Command.cmd. -/
def Command.cmd (recipient : Int) (dataType : Nat) (data : List Nat) : Command :=
  Command.make { msgType := some MSGTYPE_COMMAND, dataType := some dataType,
                 recipient := some recipient, data := some data }

/-- Embeds the static builder Command.cmdCamera. -/
def Command.cmdCamera (recipient : Int) (data : List Nat) : Command :=
  Command.cmd recipient DATATYPE_CAMERA data

/-- Embeds Command.cmdCameraZoomDirect: subcommand 0x47 followed by the
nibble-encoded zoom value. -/
def Command.cmdCameraZoomDirect (device : Int) (zoomval : Nat) : Command :=
  Command.cmdCamera device (CAM_ZOOM_DIRECT :: i2v zoomval)

/-- Well-formed command from the round-trip claim C1: source 0, recipient 2,
not broadcast, COMMAND type, camera datatype, nibble-safe payload. -/
def c1Cmd : Command :=
  { source := 0, recipient := 2, broadcast := false, msgType := MSGTYPE_COMMAND,
    socket := 0, dataType := DATATYPE_CAMERA, data := [1, 2, 3, 4] }

/-- Claim C1 (code bug): the parse of a serialized well-formed Command does
not return the Command: the serialized header has already collapsed
recipient 2 to bit 0 (0x80 instead of 0x82), and _parsePacket throws a
ReferenceError on its undeclared data identifier, so fromPacket returns an
error instead of a Command agreeing with c1Cmd. -/
theorem C1_roundtrip_fails :
    c1Cmd.toPacket = [0x80, 0x01, 0x04, 1, 2, 3, 4, 0xFF] ∧
    Command.fromPacket c1Cmd.toPacket = Except.error JsError.referenceError := by
  constructor
  · decide
  · rfl

/-- Header example from claim C3: source 0, recipient 2, broadcast clear. -/
def c3Cmd : Command :=
  { source := 0, recipient := 2, broadcast := false, msgType := MSGTYPE_COMMAND,
    socket := 0, dataType := 0, data := [] }

/-- Claim C3 (code bug): the header byte for source 0, recipient 2,
broadcast clear is 0x80, not the claimed 0x80 or (0 << 4) or 2 = 0x82,
because the source masks the recipient with the hex literal 0x111 instead
of 0b111. -/
theorem C3_header_mangles_recipient :
    c3Cmd.header = 0x80 ∧ c3Cmd.header ≠ 0x82 := by
  constructor
  · decide
  · decide

/-- Claim C4 (code bug): cmdCameraZoomDirect(1, 0x1234) serializes to
88 01 FF, not the claimed 81 01 04 47 01 02 03 04 FF, because
_mergeDefaults discards the caller's options (its for-in loop iterates the
indices of the key array), leaving the default broadcast command with an
empty payload. -/
theorem C4_zoom_direct_frame :
    (Command.cmdCameraZoomDirect 1 0x1234).toPacket = [0x88, 0x01, 0xFF] ∧
    (Command.cmdCameraZoomDirect 1 0x1234).toPacket ≠
      [0x81, 0x01, 0x04, 0x47, 0x01, 0x02, 0x03, 0x04, 0xFF] := by
  constructor
  · decide
  · decide

/-! ## Joystick helper (SidewinderPP module) -/

/-- Embeds the JavaScript bitwise NOT for an operand in int32 range:
the operator coerces to a signed 32-bit integer and ~val = -(val+1). -/
def jsBitNot (val : Nat) : Int := -((val : Int) + 1)

/-- Embeds unsigned2signed(val, bits): signBit = 2^(bits-1),
mask = 2^bits; when the sign bit of val is set the source returns
-(mask + ~val + 1), else val.  For bits <= 31 and val < 2^bits every
intermediate stays in int32 range, so the model is exact. -/
def unsigned2signed (val : Nat) (bits : Nat) : Int :=
  let signBit := 2 ^ (bits - 1)
  let mask := (2 : Int) ^ bits
  if val &&& signBit != 0 then -(mask + jsBitNot val + 1) else (val : Int)

/-- Claim C9: for 1 <= bits <= 31 and val < 2^bits, unsigned2signed is the
exact two's-complement decoding: val when val < 2^(bits-1), otherwise
val - 2^bits; the result lies in [-2^(bits-1), 2^(bits-1)-1]. -/
theorem C9_unsigned2signed_exact (bits val : Nat) (hb1 : 1 ≤ bits) (hb2 : bits ≤ 31)
    (hval : val < 2 ^ bits) :
    unsigned2signed val bits
      = (if val < 2 ^ (bits - 1) then (val : Int) else (val : Int) - 2 ^ bits) ∧
    -((2 : Int) ^ (bits - 1)) ≤ unsigned2signed val bits ∧
    unsigned2signed val bits ≤ 2 ^ (bits - 1) - 1 := by
  obtain ⟨k, rfl⟩ : ∃ k, bits = k + 1 := ⟨bits - 1, by omega⟩
  simp only [unsigned2signed, jsBitNot, Nat.add_sub_cancel]
  have hpow : (2 : Nat) ^ (k + 1) = 2 ^ k * 2 := pow_succ 2 k
  have hdiv : val / 2 ^ k < 2 := Nat.div_lt_of_lt_mul (by omega)
  have htb : val.testBit k = decide (2 ^ k ≤ val) := by
    rw [Nat.testBit_to_div_mod]
    by_cases hle : 2 ^ k ≤ val
    · have h2 : 1 ≤ val / 2 ^ k := (Nat.one_le_div_iff (Nat.two_pow_pos k)).mpr hle
      have h1 : val / 2 ^ k = 1 := by omega
      simp [h1, hle]
    · have h1 : val / 2 ^ k = 0 := Nat.div_eq_of_lt (by omega)
      simp [h1, hle]
  have hand : val &&& 2 ^ k = (decide (2 ^ k ≤ val)).toNat * 2 ^ k := by
    rw [Nat.and_two_pow, htb]
  have hIpow : ((2 : Int)) ^ (k + 1) = 2 * (((2 : Nat) ^ k : Nat) : Int) := by
    push_cast [pow_succ]
    ring
  have hIpow2 : ((2 : Int)) ^ k = (((2 : Nat) ^ k : Nat) : Int) := by
    push_cast
    ring
  by_cases hle : 2 ^ k ≤ val
  · have hcond : (val &&& 2 ^ k != 0) = true := by
      rw [hand]
      simp [hle]
    simp only [hcond, if_true]
    rw [if_neg (by omega : ¬ val < 2 ^ k)]
    rw [hIpow, hIpow2]
    refine ⟨by omega, by omega, by omega⟩
  · have hcond : (val &&& 2 ^ k != 0) = false := by
      rw [hand]
      simp [hle]
    simp only [hcond, Bool.false_eq_true, if_false]
    rw [if_pos (by omega : val < 2 ^ k)]
    rw [hIpow2]
    refine ⟨rfl, by omega, by omega⟩

/-- Witness for C9 at bits = 6, val = 63 (the joystick z-axis width). -/
theorem C9_unsigned2signed_exact_witness :
    unsigned2signed 63 6
      = (if (63 : Nat) < 2 ^ (6 - 1) then ((63 : Nat) : Int) else ((63 : Nat) : Int) - 2 ^ 6) ∧
    -((2 : Int) ^ (6 - 1)) ≤ unsigned2signed 63 6 ∧
    unsigned2signed 63 6 ≤ 2 ^ (6 - 1) - 1 :=
  C9_unsigned2signed_exact 6 63 (by norm_num) (by norm_num) (by norm_num)

/-! ## Pan-tilt status reply parser (command.js class PTStatus) -/

/-- Embeds the nibbles helper: split each byte into its two nibbles. -/
def nibbles : List Nat → List Nat
  | [] => []
  | d :: rest => (d >>> 4) :: (d &&& 0b1111) :: nibbles rest

structure PTStatus where
  initStatus : Nat
  moveStatus : Nat
  atMaxL : Bool
  atMaxR : Bool
  atMaxU : Bool
  atMaxD : Bool
  moving : Bool
  moveDone : Bool
  moveFail : Bool
  initializing : Bool
  ready : Bool
  fail : Bool
  deriving DecidableEq

/-- Embeds the PTStatus constructor.  The PAN_* bit-layout constants live
in the missing constants.js, so the embedding takes them as arguments and
every theorem below quantifies over them.  The constructor destructures the
first four of the eight nibbles of the 4-byte payload as p, q, r, s (r is
unused by the source). -/
def PTStatus.make (PAN_MOVE_FAIL PAN_INIT_FAIL PAN_MAXL PAN_MAXR PAN_MAXU PAN_MAXD : Nat)
    (data : List Nat) : PTStatus :=
  let nib := nibbles data
  let p := nib.getD 0 0
  let q := nib.getD 1 0
  let s := nib.getD 3 0
  let moveStatus := (q &&& PAN_MOVE_FAIL) >>> 2
  let initStatus := p &&& PAN_INIT_FAIL
  { initStatus := initStatus
    moveStatus := moveStatus
    atMaxL := decide (0 < (s &&& PAN_MAXL))
    atMaxR := decide (0 < (s &&& PAN_MAXR))
    atMaxU := decide (0 < (s &&& PAN_MAXU))
    atMaxD := decide (0 < (s &&& PAN_MAXD))
    moving := moveStatus == 1
    moveDone := moveStatus == 2
    moveFail := moveStatus == 3
    initializing := initStatus == 1
    ready := initStatus == 2
    fail := initStatus == 3 }

/-- Claim C10: for any 4-byte pan-tilt status payload (and any values of the
bit-layout constants), at most one of moving/moveDone/moveFail is true and
at most one of initializing/ready/fail is true, because each triple compares
one decoded field against the three distinct values 1, 2 and 3. -/
theorem C10_ptstatus_exclusive (pmf pif pml pmr pmu pmd : Nat) (data : List Nat)
    (hlen : data.length = 4) :
    ((PTStatus.make pmf pif pml pmr pmu pmd data).moving
        && (PTStatus.make pmf pif pml pmr pmu pmd data).moveDone) = false ∧
    ((PTStatus.make pmf pif pml pmr pmu pmd data).moving
        && (PTStatus.make pmf pif pml pmr pmu pmd data).moveFail) = false ∧
    ((PTStatus.make pmf pif pml pmr pmu pmd data).moveDone
        && (PTStatus.make pmf pif pml pmr pmu pmd data).moveFail) = false ∧
    ((PTStatus.make pmf pif pml pmr pmu pmd data).initializing
        && (PTStatus.make pmf pif pml pmr pmu pmd data).ready) = false ∧
    ((PTStatus.make pmf pif pml pmr pmu pmd data).initializing
        && (PTStatus.make pmf pif pml pmr pmu pmd data).fail) = false ∧
    ((PTStatus.make pmf pif pml pmr pmu pmd data).ready
        && (PTStatus.make pmf pif pml pmr pmu pmd data).fail) = false := by
  simp only [PTStatus.make, Bool.and_eq_false_iff, beq_eq_false_iff_ne, ne_eq]
  omega

/-- Witness for C10 on the payload 12 34 00 00 with the plausible constant
values PAN_MOVE_FAIL = 0x0C, PAN_INIT_FAIL = 0x03 and max masks 1,2,4,8. -/
theorem C10_ptstatus_exclusive_witness :
    ((PTStatus.make 0x0C 0x03 1 2 4 8 [0x12, 0x34, 0, 0]).moving
        && (PTStatus.make 0x0C 0x03 1 2 4 8 [0x12, 0x34, 0, 0]).moveDone) = false ∧
    ((PTStatus.make 0x0C 0x03 1 2 4 8 [0x12, 0x34, 0, 0]).moving
        && (PTStatus.make 0x0C 0x03 1 2 4 8 [0x12, 0x34, 0, 0]).moveFail) = false ∧
    ((PTStatus.make 0x0C 0x03 1 2 4 8 [0x12, 0x34, 0, 0]).moveDone
        && (PTStatus.make 0x0C 0x03 1 2 4 8 [0x12, 0x34, 0, 0]).moveFail) = false ∧
    ((PTStatus.make 0x0C 0x03 1 2 4 8 [0x12, 0x34, 0, 0]).initializing
        && (PTStatus.make 0x0C 0x03 1 2 4 8 [0x12, 0x34, 0, 0]).ready) = false ∧
    ((PTStatus.make 0x0C 0x03 1 2 4 8 [0x12, 0x34, 0, 0]).initializing
        && (PTStatus.make 0x0C 0x03 1 2 4 8 [0x12, 0x34, 0, 0]).fail) = false ∧
    ((PTStatus.make 0x0C 0x03 1 2 4 8 [0x12, 0x34, 0, 0]).ready
        && (PTStatus.make 0x0C 0x03 1 2 4 8 [0x12, 0x34, 0, 0]).fail) = false :=
  C10_ptstatus_exclusive 0x0C 0x03 1 2 4 8 [0x12, 0x34, 0, 0] (by decide)

/-! ## Camera (camera.js class Camera)

Only the fields and operations the claims touch are embedded: cameraBuffers
(the slot map, keyed by socket number in insertion order) and sentCommands
(the sent-awaiting-ack FIFO).  Commands are tracked by an id so that
callback firings are observable; each operation returns the event list of
callbacks it invoked.  Camera.prototype.ack throws before reaching
_update, and _clearOldCommands touches neither queue, so commandQueue and
inquiryQueue are irrelevant to claims C5 and C6 and are not modelled. -/

structure TrackedCmd where
  id : Nat
  msgType : Nat
  addedAt : Nat
  deriving DecidableEq

/-- Observable callback firings of a camera operation. -/
inductive CamEvent where
  | ackFired (id : Nat)
  | completeFired (id : Nat)
  | errorFired (id : Nat) (code : Nat)
  deriving DecidableEq

structure CameraState where
  cameraBuffers : List (Nat × TrackedCmd)
  sentCommands : List TrackedCmd
  deriving DecidableEq

/-- Embeds Camera.prototype.ack.  The source runs
let cmd = this.sentCommands.splice(0, 1): splice removes the head and
returns a ONE-ELEMENT ARRAY, not the command, so the following cmd.ack()
is a TypeError (arrays have no ack method).  The throw happens after the
splice mutation but before any callback fires and before any buffer
assignment; the error value carries the mutated state.  The reply socket
is never reached. -/
def Camera.ack (s : CameraState) (_replySocket : Nat) :
    Except (JsError × CameraState) (CameraState × List CamEvent) :=
  Except.error (JsError.typeError, { s with sentCommands := s.sentCommands.drop 1 })

/-- Embeds the while-loop of Camera.prototype._clearOldCommands: pop the
head of sentCommands while now - addedAt is not < 1000, i.e. while the head
is stale. -/
def dropStaleHead (now : Nat) : List TrackedCmd → List TrackedCmd
  | [] => []
  | c :: rest => if now - c.addedAt < 1000 then c :: rest else dropStaleHead now rest

/-- Embeds Camera.prototype._clearOldCommands.  After the while loop, the
source iterates Object.keys(this.cameraBuffers) and, for every buffer entry
with now - addedAt > 1000, runs this.sentCommands.splice(0, 1): it removes
the head of the sent FIFO instead of the stale buffer entry, and it never
invokes any callback, so the event list is empty and cameraBuffers is
returned unchanged. -/
def Camera.clearOldCommands (now : Nat) (s : CameraState) :
    CameraState × List CamEvent :=
  let sent1 := dropStaleHead now s.sentCommands
  let sent2 := s.cameraBuffers.foldl
    (fun acc kv => if 1000 < now - kv.2.addedAt then acc.drop 1 else acc) sent1
  ({ s with sentCommands := sent2 }, [])

theorem dropStaleHead_eq_dropWhile (now : Nat) (l : List TrackedCmd) :
    dropStaleHead now l = l.dropWhile (fun c => 1000 ≤ now - c.addedAt) := by
  induction l with
  | nil => rfl
  | cons c rest ih =>
    rw [dropStaleHead, List.dropWhile_cons]
    by_cases h : now - c.addedAt < 1000
    · rw [if_pos h, if_neg (by simpa using by omega)]
    · rw [if_neg h, if_pos (by simpa using by omega), ih]

theorem foldl_stale_drop (now : Nat) (bufs : List (Nat × TrackedCmd)) (l : List TrackedCmd) :
    bufs.foldl (fun acc kv => if 1000 < now - kv.2.addedAt then acc.drop 1 else acc) l
      = l.drop (bufs.countP (fun kv => 1000 < now - kv.2.addedAt)) := by
  induction bufs generalizing l with
  | nil => rfl
  | cons kv rest ih =>
    rw [List.foldl_cons, List.countP_cons]
    by_cases h : 1000 < now - kv.2.addedAt
    · rw [if_pos h, ih, List.drop_drop]
      have he : decide (1000 < now - kv.2.addedAt) = true := by simpa using h
      rw [he]
      simp [Nat.add_comm]
    · rw [if_neg h, ih]
      have he : decide (1000 < now - kv.2.addedAt) = false := by simpa using h
      rw [he]
      simp

/-- Claim C6, amended (what the code actually does): the stale-command GC
silently removes the stale prefix of sent_awaiting_ack (commands whose age
now - admittedAt is at least 1 second), then removes one further command
from the head of sent_awaiting_ack for every slot entry older than 1
second; it fires no callback at all (in particular no on_error(TIMEOUT)),
and it never removes stale slot entries. -/
theorem C6_gc_silent_drop (now : Nat) (s : CameraState) :
    Camera.clearOldCommands now s =
      ({ s with sentCommands :=
            ((s.sentCommands.dropWhile (fun c => 1000 ≤ now - c.addedAt)).drop
              (s.cameraBuffers.countP (fun kv => 1000 < now - kv.2.addedAt))) },
        ([] : List CamEvent)) := by
  rw [Camera.clearOldCommands, dropStaleHead_eq_dropWhile, foldl_stale_drop]

/-- Concrete GC scenario: one stale command (id 7, admitted at 0) in
sent_awaiting_ack and one stale slot occupant (id 9) in buffer 1, observed
at now = 5000. -/
def gcState : CameraState :=
  { cameraBuffers := [(1, { id := 9, msgType := MSGTYPE_COMMAND, addedAt := 0 })]
    sentCommands := [{ id := 7, msgType := MSGTYPE_COMMAND, addedAt := 0 }] }

/-- Claim C6 counterexample: at gcState with now = 5000 the stale command
id 7 is indeed dropped from sent_awaiting_ack, but the GC fires no
on_error(TIMEOUT) (the event list is empty) and the stale slot occupant
id 9 stays in the buffers, contradicting the claim that every dropped
command fires its error callback and that stale slots are cleared. -/
theorem C6_gc_counterexample :
    (Camera.clearOldCommands 5000 gcState).2 = [] ∧
    (Camera.clearOldCommands 5000 gcState).1.sentCommands = [] ∧
    (Camera.clearOldCommands 5000 gcState).1.cameraBuffers =
      [(1, { id := 9, msgType := MSGTYPE_COMMAND, addedAt := 0 })] := by
  refine ⟨rfl, rfl, rfl⟩

/-- Concrete ACK scenario: one command (id 1) awaiting its ACK. -/
def ackState : CameraState :=
  { cameraBuffers := []
    sentCommands := [{ id := 1, msgType := MSGTYPE_COMMAND, addedAt := 0 }] }

/-- Claim C5 (code bug): when an ACK for socket 1 reaches a camera with a
non-empty sent_awaiting_ack, Camera.ack throws a TypeError: the head IS
removed by the splice, but its on_ack never fires (no event) and no command
is bound to slot 1 (cameraBuffers stays empty), so the claimed FIFO ack
behaviour never happens. -/
theorem C5_ack_throws :
    Camera.ack ackState 1 =
      Except.error (JsError.typeError,
        { cameraBuffers := [], sentCommands := [] }) := by
  rfl

/-! ## Controller (controller.js class ViscaController) -/

/-- A freshly constructed Camera record (new Camera()): empty buffers,
empty sent FIFO. -/
def newCamera : CameraState := { cameraBuffers := [], sentCommands := [] }

structure ControllerState where
  cameraCount : Int
  cameras : List (Nat × CameraState)

/-- Embeds the MSGTYPE_ADDRESS_SET case of ViscaController.prototype.onData
(lines 226-231 of the source): this.cameraCount = v.data[0] - 1, reset
this.cameras to an empty table, then for i = 0 .. cameraCount-1 create
this.cameras[i+1] = new Camera().  (The inquireAll() call that follows has
an empty body in the source.) -/
def ViscaController.handleAddressSet (ctrl : ControllerState) (v : Command) :
    ControllerState :=
  let cameraCount : Int := (v.data.getD 0 0 : Int) - 1
  { ctrl with
    cameraCount := cameraCount
    cameras := (List.range cameraCount.toNat).map (fun i => (i + 1, newCamera)) }

/-- Claim C7: an AddressSet frame whose first payload byte is N+1 resets
the camera table to exactly N fresh Camera records at addresses 1..N. -/
theorem C7_address_set_creates (ctrl : ControllerState) (v : Command) (N : Nat)
    (hdata : v.data.getD 0 0 = N + 1) :
    (ViscaController.handleAddressSet ctrl v).cameras
        = (List.range N).map (fun i => (i + 1, newCamera)) ∧
    (ViscaController.handleAddressSet ctrl v).cameraCount = (N : Int) := by
  simp only [ViscaController.handleAddressSet, hdata]
  have h1 : (((N : Nat) + 1 : Nat) : Int) - 1 = (N : Int) := by push_cast; ring
  rw [h1]
  rw [Int.toNat_natCast]
  exact ⟨rfl, rfl⟩

/-- The chain reply of the three-camera bring-up scenario: 88 30 04 FF
parsed as an AddressSet command with payload byte 4. -/
def c7Cmd : Command :=
  { source := 0, recipient := 0, broadcast := true, msgType := MSGTYPE_ADDRESS_SET,
    socket := 0, dataType := 0, data := [4] }

/-- Witness for C7: payload byte 4 = 3+1 yields camera records exactly at
addresses 1, 2 and 3. -/
theorem C7_address_set_creates_witness :
    (ViscaController.handleAddressSet { cameraCount := 0, cameras := [] } c7Cmd).cameras
        = (List.range 3).map (fun i => (i + 1, newCamera)) ∧
    (ViscaController.handleAddressSet { cameraCount := 0, cameras := [] } c7Cmd).cameraCount
        = ((3 : Nat) : Int) :=
  C7_address_set_creates { cameraCount := 0, cameras := [] } c7Cmd 3 rfl

end Ptz
